import Mathlib

/-!
Verification of the move-classification core in `analyzer.py`
(`analyze_moves_for_position`, `classify_by_delta` and their helpers).

Embedding conventions:
* Python ints are `ℤ`, Python floats are `ℚ` (every float constant in the
  analyzer — 0.8, 0.5, 0.2, 1.4, thresholds, … — is exactly representable
  as a rational, and `int(5 * 0.8) = 4`, `int(5 * 0.2) = 1` also hold in
  exact IEEE double arithmetic, so the rational model agrees with the
  float execution on all constants the code uses).
* `cp_to_win_percent` is the transcendental sigmoid `100/(1+e^(-k*cp))`
  computed in floating point; the classification pipeline consumes only
  its output values, so the pipeline is parameterized by an abstract
  `cpToWin : ℤ → ℚ` standing for that function.
* The chess-rules library (`python-chess`) and the opening book are
  external collaborators per the spec; every fact the analyzer obtains
  from them (canonical FEN, fallback material counts, capture/attack
  facts, `in_book`) enters the model as oracle input data.  The engine's
  deeper re-evaluation `engine_interface.evaluate(board_after, depth)` is
  modeled as a function from the move's UCI string (identifying the
  board after the move) and the depth to `Except String EvalCM`, the
  `.error` case standing for a raised exception.
* `uuid.uuid4()` is a fresh random draw per call; it is modeled as the
  explicit parameter `base` (the code uses it only in `analysis_id` and
  in logging).
* Python `dict` truthiness (`if d:`) is modeled by `mat_truthy`;
  `round` is round-half-to-even (`py_round`), `int(float)` truncates
  toward zero (`py_int`).
* `book_meta` (analyzer.py line 452) is queried but its result is never
  used, and local variables `stability` (line 459), `is_unverified`
  (after being set), `moves_mate_before`, `moves_mate_after_preserves`
  are dead; dead reads are omitted from the model.
-/

inductive PieceType where
  | pawn | knight | bishop | rook | queen | king
deriving Repr, DecidableEq

/-- Piece values of `Config.piece_values` (pawn-equivalent centipawns). -/
def default_piece_values : PieceType → ℤ
  | .pawn => 100
  | .knight => 320
  | .bishop => 330
  | .rook => 500
  | .queen => 900
  | .king => 0

/-- The `Config` dataclass of analyzer.py. -/
structure Config where
  sigmoid_k : ℚ
  mate_win_score : ℚ
  mate_loss_score : ℚ
  mate_cp_base : ℤ
  mate_cp_step : ℤ
  piece_values : PieceType → ℤ
  big_sacrifice_cp : ℤ
  pawn_sacrifice_cp : ℤ
  sacrifice_sound_max_win_loss : ℚ
  tie_cp_eps : ℤ
  tie_win_eps : ℚ
  delta_best : ℚ
  delta_excellent : ℚ
  delta_good : ℚ
  delta_inaccuracy : ℚ
  delta_mistake : ℚ
  book_dubious_threshold : ℚ
  unstable_cp_diff : ℤ
  material_penalty_factor : ℚ
  verification_depth_extra : ℤ

/-- The default `Config()` values. -/
def DEFAULT_CONFIG : Config where
  sigmoid_k := 0.00368
  mate_win_score := 100
  mate_loss_score := 0
  mate_cp_base := 10000
  mate_cp_step := 100
  piece_values := default_piece_values
  big_sacrifice_cp := 210
  pawn_sacrifice_cp := 90
  sacrifice_sound_max_win_loss := 5
  tie_cp_eps := 10
  tie_win_eps := 0.7
  delta_best := 1
  delta_excellent := 3
  delta_good := 5
  delta_inaccuracy := 9
  delta_mistake := 20
  book_dubious_threshold := 2
  unstable_cp_diff := 200
  material_penalty_factor := 0.8
  verification_depth_extra := 4

/-- Material count dictionaries `{piece_symbol: count}` are modeled as
association lists iterated in insertion order, like Python dicts. -/
abbrev MatCounts := List (String × ℤ)

/-- The `EngineEval` dataclass (raw evaluation data from the engine). -/
structure EngineEval where
  cp : Option ℤ := none
  mate : Option ℤ := none
  material : Option MatCounts := none
  depth : Option ℤ := none
deriving Repr, DecidableEq

/-- The `{'cp': …, 'mate': …}` mapping returned by `engine_interface.evaluate`. -/
structure EvalCM where
  cp : Option ℤ := none
  mate : Option ℤ := none
deriving Repr, DecidableEq

/-- The `engine_eval_after` entry of a legal-move dict (`.get` with default
`{}` makes an absent dict equal to one with all keys absent). -/
structure EvalAfter where
  cp : Option ℤ := none
  mate : Option ℤ := none
  depth : Option ℤ := none
deriving Repr, DecidableEq

/-- Facts the analyzer reads from `python-chess` about the position after a
candidate move (board mutation is an external collaborator, so these arrive
as oracle data): the mover's fallback piece counts after the move, the
mover's non-pawn piece count after the move, `board_master.is_capture`,
`piece_type_at` of destination and origin square, and
`board_master.is_attacked_by(opp_color, to_square)`. -/
structure MoveBoardFacts where
  mover_counts_after : MatCounts := []
  nonpawn_after : ℤ := 0
  is_capture_on_board : Bool := false
  victim_piece : Option PieceType := none
  attacker_piece : Option PieceType := none
  dest_attacked_by_opponent : Bool := false
deriving Repr, DecidableEq

/-- One entry of `legal_moves_data` (a Python dict; `.get` defaults are the
field defaults here), together with its board-derived oracle facts. -/
structure MoveData where
  move_uci : String
  move_san : Option String := none
  engine_rank : Option ℤ := none
  engine_eval_after : EvalAfter := {}
  material_after : Option MatCounts := none
  is_capture : Bool := false
  is_promotion : Bool := false
  is_castle : Bool := false
  is_check : Bool := false
  board : MoveBoardFacts := {}
deriving Repr, DecidableEq

/-- Facts read from `chess.Board(fen)` for the position before the move:
`board_master.fen()` (canonical FEN used for book lookups), the mover's
fallback piece counts, and the mover's non-pawn piece count. -/
structure BoardFacts where
  canonical_fen : String := ""
  mover_counts_before : MatCounts := []
  nonpawn_before : ℤ := 0
deriving Repr, DecidableEq

/-- The per-call context of `analyze_moves_for_position`: the win-probability
function (abstracting `cp_to_win_percent`), the configuration, the fixed
engine attributes, the book collaborator, and the inputs `fen` (through its
board facts), `side_to_move_white` and `eval_before`.  The engine's
`evaluate` method is passed separately to the functions that use it. -/
structure Ctx where
  cpToWin : ℤ → ℚ
  cfg : Config
  default_depth : ℤ
  returns_white_pov : Bool
  in_book : String → String → Bool
  side_to_move_white : Bool
  eval_before : EngineEval
  board : BoardFacts

/-- The `analysis_meta` dictionary, with one field per key the code writes. -/
structure Meta where
  book_health : Option String := none
  engine_classification : Option String := none
  original_rank : ℤ := 0
  is_sac_candidate : Bool := false
  verified_sound : Bool := false
  sac_type : Option String := none
  verified : Option Bool := none
deriving Repr, DecidableEq

/-- The `MoveAnalysis` dataclass (one verdict per candidate move). -/
@[ext] structure MoveAnalysis where
  analysis_id : String
  move_uci : String
  move_san : Option String
  engine_rank : ℤ
  cp_before : Option ℤ
  cp_after : Option ℤ
  win_before : ℚ
  win_after : ℚ
  win_delta : ℚ
  material_before_cp : Option ℤ
  material_after_cp : Option ℤ
  material_delta_cp : Option ℤ
  non_pawn_piece_loss : Option ℤ
  is_capture : Bool
  is_promotion : Bool
  is_castle : Bool
  is_check : Bool
  is_forced : Bool
  is_book_move : Bool
  is_mate_threat : Bool
  is_mate_missed : Bool
  classification : String
  accuracy : ℤ
  classification_confidence : String
  comments : Option String
  analysis_meta : Meta
deriving Repr, DecidableEq

/-- `normalize_cp`: flip a white-perspective score for Black to move. -/
def normalize_cp (engine_cp : Option ℤ) (engine_returns_white_pov side_to_move_white : Bool) :
    Option ℤ :=
  match engine_cp with
  | none => none
  | some v =>
    if engine_returns_white_pov then
      (if side_to_move_white then some v else some (-v))
    else some v

/-- `mate_to_cp_equiv`: mate-in-N to a large signed centipawn equivalent. -/
def mate_to_cp_equiv (mate : ℤ) (config : Config) : ℤ :=
  if mate = 0 then 0
  else (if mate > 0 then 1 else -1) * (config.mate_cp_base - |mate| * config.mate_cp_step)

/-- Python `str.upper()` on the (ASCII) piece symbols: upper-case every
character.  (Equivalent to `String.toUpper`, written as a structural map so
that it evaluates inside the kernel.) -/
def upper_str (s : String) : String :=
  ⟨s.data.map Char.toUpper⟩

/-- `symbol_map.get(piece_char.upper())` of `compute_material_cp`. -/
def symbol_to_type (s : String) : Option PieceType :=
  let u := upper_str s
  if u = "P" then some .pawn
  else if u = "N" then some .knight
  else if u = "B" then some .bishop
  else if u = "R" then some .rook
  else if u = "Q" then some .queen
  else if u = "K" then some .king
  else none

/-- `compute_material_cp`: total material value in centipawns of a count
dictionary; unknown symbols contribute zero. -/
def compute_material_cp (material_counts : MatCounts) (config : Config) : ℤ :=
  material_counts.foldl
    (fun total kv =>
      match symbol_to_type kv.1 with
      | some p_type => total + kv.2 * config.piece_values p_type
      | none => total)
    0

/-- `scale_by_position`: volatility scale from the win probability before. -/
def scale_by_position (win_before : ℚ) : ℚ :=
  if 45 ≤ win_before ∧ win_before ≤ 55 then 1.4
  else if (35 ≤ win_before ∧ win_before < 45) ∨ (55 < win_before ∧ win_before ≤ 65) then 1.1
  else if win_before < 20 ∨ win_before > 80 then 0.6
  else 1

/-- `classify_by_delta`: standard classification from win% loss. -/
def classify_by_delta (loss : ℚ) (config : Config) : String :=
  if loss ≤ config.delta_best then "Best"
  else if loss ≤ config.delta_excellent then "Excellent"
  else if loss ≤ config.delta_good then "Good"
  else if loss ≤ config.delta_inaccuracy then "Inaccuracy"
  else if loss ≤ config.delta_mistake then "Mistake"
  else "Blunder"

/-- Python 3 `round` on an exact rational: round half to even. -/
def py_round (q : ℚ) : ℤ :=
  if q - ⌊q⌋ < 1/2 then ⌊q⌋
  else if q - ⌊q⌋ > 1/2 then ⌊q⌋ + 1
  else if ⌊q⌋ % 2 = 0 then ⌊q⌋ else ⌊q⌋ + 1

/-- Python `int()` on a float: truncate toward zero. -/
def py_int (q : ℚ) : ℤ :=
  if 0 ≤ q then ⌊q⌋ else ⌈q⌉

/-- The tiered stability estimate of the scorer (analyzer.py lines 685-689):
0.5 by default, 0.8 when the after-eval depth reached default+2, 0.2 when it
is below 10. -/
def stability_val (depth_input default_depth : ℤ) : ℚ :=
  if depth_input ≥ default_depth + 2 then 0.8
  else if depth_input < 10 then 0.2
  else 0.5

/-- `stability_bonus = int(5 * stability_val)` (line 691). -/
def stability_bonus (depth_input default_depth : ℤ) : ℤ :=
  py_int (5 * stability_val depth_input default_depth)

/-- Python truthiness of an optional material dict (`None` and `{}` are falsy). -/
def mat_truthy : Option MatCounts → Bool
  | some (_ :: _) => true
  | _ => false

/-- The local `count_pieces` helper: sum of counts of non-pawn non-king keys. -/
def count_pieces (m_dict : MatCounts) : ℤ :=
  m_dict.foldl
    (fun s kv => if upper_str kv.1 ≠ "P" ∧ upper_str kv.1 ≠ "K" then s + kv.2 else s)
    0

/-- `"; ".join(comments)`. -/
def join_semicolon : List String → String
  | [] => ""
  | c :: cs => cs.foldl (fun a x => a ++ "; " ++ x) c

/-- `"; ".join(comments) if comments else None`. -/
def render_comments (l : List String) : Option String :=
  match l with
  | [] => none
  | _ => some (join_semicolon l)

/-- Descending insertion of `sorted(..., reverse=True)` on the win values. -/
def insert_desc (x : ℚ) : List ℚ → List ℚ
  | [] => [x]
  | y :: ys => if x ≥ y then x :: y :: ys else y :: insert_desc x ys

/-- `sorted(processed_moves, key=lambda x: x['win'], reverse=True)`, projected
to the win values (the code reads only `sorted_moves[0]['win']` and
`sorted_moves[1]['win']`, which equal the first two sorted win values). -/
def sort_desc : List ℚ → List ℚ
  | [] => []
  | x :: xs => insert_desc x (sort_desc xs)

/-- One entry of `processed_moves`: the move data with its normalized
centipawn value and win probability from the first pass. -/
structure ProcEntry where
  md : MoveData
  cp : ℤ
  win : ℚ
deriving Repr, DecidableEq

/-- The first-pass body (analyzer.py lines 297-346): normalize the
candidate's evaluation to the mover's perspective; a mate is categorical
(win%) with a centipawn equivalent for ranking, a missing cp falls back
to 0. -/
def process_candidate (c : Ctx) (md : MoveData) : ProcEntry :=
  let e := md.engine_eval_after
  let current_cp := normalize_cp e.cp c.returns_white_pov c.side_to_move_white
  match e.mate with
  | some raw_mate =>
    let mate_val := if c.returns_white_pov && !c.side_to_move_white then -raw_mate else raw_mate
    if mate_val > 0 then ⟨md, mate_to_cp_equiv mate_val c.cfg, c.cfg.mate_win_score⟩
    else ⟨md, mate_to_cp_equiv mate_val c.cfg, c.cfg.mate_loss_score⟩
  | none =>
    let cp := current_cp.getD 0
    ⟨md, cp, c.cpToWin cp⟩

/-- The first pass over `legal_moves_data`. -/
def processed_of (c : Ctx) (lmd : List MoveData) : List ProcEntry :=
  lmd.map (process_candidate c)

/-- `best_move_cp_score`: running maximum of the normalized centipawn values
(the code starts from `-inf`, so on a non-empty batch this is the maximum;
the 0 returned for an empty batch is never read, since the second pass
iterates the same empty list). -/
def best_cp : List ProcEntry → ℤ
  | [] => 0
  | x :: xs => xs.foldl (fun b y => if y.cp > b then y.cp else b) x.cp

/-- `best_move_win_percent`: running maximum of the win probabilities,
starting from the code's initial value `-1.0`. -/
def best_win (l : List ProcEntry) : ℚ :=
  l.foldl (fun b y => if y.win > b then y.win else b) (-1)

/-- `cp_val_before` and `win_before` (analyzer.py lines 243-263): mate before
is categorical, missing cp falls back to 0. -/
def cp_win_before (c : Ctx) : ℤ × ℚ :=
  let cp0 := normalize_cp c.eval_before.cp c.returns_white_pov c.side_to_move_white
  match c.eval_before.mate with
  | some raw_mate =>
    let mv := if c.returns_white_pov && !c.side_to_move_white then -raw_mate else raw_mate
    if mv > 0 then (mate_to_cp_equiv mv c.cfg, c.cfg.mate_win_score)
    else (mate_to_cp_equiv mv c.cfg, c.cfg.mate_loss_score)
  | none =>
    let cp := cp0.getD 0
    (cp, c.cpToWin cp)

/-- `mate_val_before`: the mover-relative mate distance before the move,
defined only when `eval_before.mate` is present. -/
def mate_val_before (c : Ctx) : Option ℤ :=
  c.eval_before.mate.map
    (fun m => if c.returns_white_pov && !c.side_to_move_white then -m else m)

/-- `material_before_cp` (lines 272-281): supplied counts if the dict is
truthy, else the board fallback (the mover's own pieces). -/
def material_before_of (c : Ctx) : ℤ :=
  if mat_truthy c.eval_before.material then
    compute_material_cp (c.eval_before.material.getD []) c.cfg
  else
    compute_material_cp c.board.mover_counts_before c.cfg

/-- `material_after_cp` (lines 388-398): supplied counts if truthy, else the
board fallback after pushing the move. -/
def material_after_of (c : Ctx) (md : MoveData) : ℤ :=
  if mat_truthy md.material_after then
    compute_material_cp (md.material_after.getD []) c.cfg
  else
    compute_material_cp md.board.mover_counts_after c.cfg

/-- `material_delta = material_after_cp - material_before_cp` (line 400). -/
def material_delta_of (c : Ctx) (md : MoveData) : ℤ :=
  material_after_of c md - material_before_of c

/-- `non_pawn_loss` (lines 422-444): from the count dicts when both are
truthy, else recounted from the boards. -/
def non_pawn_loss_of (c : Ctx) (md : MoveData) : ℤ :=
  if mat_truthy c.eval_before.material && mat_truthy md.material_after then
    count_pieces (c.eval_before.material.getD []) - count_pieces (md.material_after.getD [])
  else
    c.board.nonpawn_before - md.board.nonpawn_after

/-- `is_book = book_manager.in_book(board_master.fen(), move_uci)` (line 451). -/
def is_book_of (c : Ctx) (md : MoveData) : Bool :=
  c.in_book c.board.canonical_fen md.move_uci

/-- `is_tied_best` (lines 374-378): within `tie_cp_eps` of the best
centipawn score, or within `tie_win_eps` of the best win probability. -/
def is_tied_best_of (cfg : Config) (processed : List ProcEntry) (e : ProcEntry) : Bool :=
  if |e.cp - best_cp processed| ≤ cfg.tie_cp_eps then true
  else if |e.win - best_win processed| ≤ cfg.tie_win_eps then true
  else false

/-- `effective_loss = max(0.0, win_delta)` (line 369). -/
def eff_loss_of (c : Ctx) (e : ProcEntry) : ℚ :=
  max 0 ((cp_win_before c).2 - e.win)

/-- Sacrifice candidacy (lines 471-501): tied-for-best and not forced, the
material-delta path first, then the trade path for attacked captures.
Returns the provisional `sac_type` (`is_sac_candidate = (sac_type).isSome`). -/
def sac_type_of (c : Ctx) (is_forced : Bool) (processed : List ProcEntry) (e : ProcEntry) :
    Option String :=
  if is_tied_best_of c.cfg processed e && !is_forced then
    let material_delta := material_delta_of c e.md
    if material_delta ≤ -c.cfg.big_sacrifice_cp then some "Brilliant"
    else if material_delta ≤ -c.cfg.pawn_sacrifice_cp then some "Great"
    else if e.md.board.is_capture_on_board then
      match e.md.board.victim_piece, e.md.board.attacker_piece with
      | some victim_pt, some attacker_pt =>
        if e.md.board.dest_attacked_by_opponent then
          let trade_delta := c.cfg.piece_values victim_pt - c.cfg.piece_values attacker_pt
          if trade_delta ≤ -c.cfg.big_sacrifice_cp then some "Brilliant"
          else if trade_delta ≤ -c.cfg.pawn_sacrifice_cp then some "Great"
          else none
        else none
      | _, _ => none
    else none
  else none

/-- The deep re-evaluation's win probability (lines 521-536): mate is
categorical, missing cp falls back to 0. -/
def deep_win_of (c : Ctx) (res : EvalCM) : ℚ :=
  match res.mate with
  | some d_mate =>
    let d_mate_val := if c.returns_white_pov && !c.side_to_move_white then -d_mate else d_mate
    if d_mate_val > 0 then c.cfg.mate_win_score else c.cfg.mate_loss_score
  | none =>
    let d_cp := (normalize_cp res.cp c.returns_white_pov c.side_to_move_white).getD 0
    c.cpToWin d_cp

/-- `deep_delta` clamped to non-negative (lines 538-539). -/
def deep_loss_of (c : Ctx) (win_before : ℚ) (res : EvalCM) : ℚ :=
  max 0 (win_before - deep_win_of c res)

/-- Result of the sacrifice-verification block. -/
structure VerifOut where
  verified_sound : Bool
  is_unverified : Bool
  comments : List String
deriving Repr, DecidableEq

/-- The verification block (lines 504-551): runs only for a sacrifice
candidate whose shallow loss is strictly below the soundness threshold;
issues one deeper evaluation at `default_depth + verification_depth_extra`;
an exception (`Except.error`) marks the move unverified with a comment and
never confirms the sacrifice. -/
def run_verification (c : Ctx) (evaluate : String → ℤ → Except String EvalCM)
    (win_before : ℚ) (sac_type : Option String) (effective_loss : ℚ) (move_uci : String) :
    VerifOut :=
  if sac_type.isSome ∧ effective_loss < c.cfg.sacrifice_sound_max_win_loss then
    let verify_depth := c.default_depth + c.cfg.verification_depth_extra
    match evaluate move_uci verify_depth with
    | Except.error _ => ⟨false, true, ["Verification failed"]⟩
    | Except.ok deep_eval =>
      let deep_delta := deep_loss_of c win_before deep_eval
      if deep_delta < c.cfg.sacrifice_sound_max_win_loss then ⟨true, false, []⟩
      else
        ⟨false, false,
          ["Sacrifice unsound at depth " ++ toString verify_depth ++
            " (loss " ++ toString deep_delta ++ "%)"]⟩
  else ⟨false, false, []⟩

/-- Outcome of classification steps 1-2 (`final_class`, `is_brilliant_great`,
comments appended so far). -/
structure PreOut where
  final : String
  fired : Bool
  comments : List String
deriving Repr, DecidableEq

/-- Classification steps 1-2 (lines 556-583): a verified sacrifice takes its
provisional type; otherwise the "only good move" rule may label "Great" when
the loss is below the Excellent boundary, the move is within 1.0 win% of the
batch maximum, the gap to the second-best win% exceeds 20.0 and the best
win% exceeds 50.0. -/
def pre_class (cfg : Config) (is_forced : Bool) (sac_type : Option String)
    (verified_sound : Bool) (effective_loss win_after : ℚ) (sorted_wins : List ℚ) : PreOut :=
  let s1fired : Bool := sac_type.isSome && verified_sound && !is_forced
  let s1final : String := if s1fired then sac_type.getD "Other" else "Other"
  if !s1fired && !is_forced then
    if effective_loss < cfg.delta_excellent then
      match sorted_wins with
      | w0 :: w1 :: _ =>
        if |win_after - w0| < 1 then
          if w0 - w1 > 20 ∧ w0 > 50 then ⟨"Great", true, ["Found the only good move."]⟩
          else ⟨s1final, s1fired, []⟩
        else ⟨s1final, s1fired, []⟩
      | _ => ⟨s1final, s1fired, []⟩
    else ⟨s1final, s1fired, []⟩
  else ⟨s1final, s1fired, []⟩

/-- Final classification outcome: label, accumulated comments, and the
`analysis_meta` book keys written by the book branch. -/
structure ClassOut where
  final : String
  comments : List String
  book_health : Option String
  engine_classification : Option String
deriving Repr, DecidableEq

/-- Classification step 3 (lines 619-672): Forced, then Book (with the
dubious-loss downgrade to Mistake/Blunder), then tie-for-best or preserved
near-certain win as "Best", else the win%-loss bucket (with the
"Already lost" comment). -/
def final_class_of (cfg : Config) (is_forced is_book is_tied : Bool)
    (win_before win_after effective_loss : ℚ) (pre : PreOut) : ClassOut :=
  if pre.fired then ⟨pre.final, pre.comments, none, none⟩
  else if is_forced then ⟨"Forced", pre.comments ++ ["Only legal move."], none, none⟩
  else if is_book then
    if effective_loss > cfg.book_dubious_threshold then
      let eng_class := classify_by_delta effective_loss cfg
      let cmts := pre.comments ++ ["Book (dubious): loses " ++ toString effective_loss ++ "%"]
      if eng_class = "Mistake" ∨ eng_class = "Blunder" then
        ⟨eng_class, cmts, some "dubious", some eng_class⟩
      else ⟨"Book", cmts, some "dubious", some eng_class⟩
    else ⟨"Book", pre.comments, some "ok", none⟩
  else if is_tied then ⟨"Best", pre.comments, none, none⟩
  else if win_before > 99 ∧ win_after > 99 then ⟨"Best", pre.comments, none, none⟩
  else
    let fc := classify_by_delta effective_loss cfg
    if win_before < 5 ∧ (fc = "Blunder" ∨ fc = "Mistake") then
      ⟨fc, pre.comments ++ ["Already lost"], none, none⟩
    else ⟨fc, pre.comments, none, none⟩

/-- `normalized_mate_after` (lines 597-605). -/
def normalized_mate_after (c : Ctx) (md : MoveData) : Option ℤ :=
  md.engine_eval_after.mate.map
    (fun m => if c.returns_white_pov && !c.side_to_move_white then -m else m)

/-- `is_mate_missed` (lines 607-613): a mate for the mover existed before
and the move's evaluation no longer shows one. -/
def mate_missed_of (c : Ctx) (md : MoveData) : Bool :=
  match mate_val_before c with
  | some mv =>
    if mv > 0 then
      match normalized_mate_after c md with
      | none => true
      | some m => if m ≤ 0 then true else false
    else false
  | none => false

/-- `is_mate_threat` (lines 616-617): the opponent has a forced mate after. -/
def mate_threat_of (c : Ctx) (md : MoveData) : Bool :=
  match normalized_mate_after c md with
  | some m => if m < 0 then true else false
  | none => false

/-- The accuracy computation (lines 677-697):
`accuracy = int(max(0, min(100, round(base + book_bonus + stability_bonus - material_penalty))))`. -/
def accuracy_of (win_before win_delta : ℚ) (is_book : Bool)
    (depth_input default_depth : ℤ) (material_delta : ℤ) (cfg : Config) : ℤ :=
  let scale := scale_by_position win_before
  let base_accuracy := 100 - |win_delta| * scale
  let bonus : ℚ := if is_book then 2 else 0
  let sb := stability_bonus depth_input default_depth
  let mat_penalty := max 0 (-(material_delta : ℚ) / 100) * cfg.material_penalty_factor
  let accuracy_raw := base_accuracy + bonus + (sb : ℚ) - mat_penalty
  max 0 (min 100 (py_round accuracy_raw))

/-- The confidence tier (lines 702-706). -/
def confidence_of (depth_input default_depth : ℤ) (is_tied : Bool) : String :=
  if stability_val depth_input default_depth ≥ 0.8 ∧ depth_input ≥ default_depth + 2 ∧ is_tied
  then "high"
  else if stability_val depth_input default_depth ≥ 0.5 then "medium"
  else "low"

/-- The `sac_type`/`is_sac_candidate` pair as wired in the second pass. -/
def sac_of (c : Ctx) (processed : List ProcEntry) (e : ProcEntry) : Option String :=
  sac_type_of c (processed.length == 1) processed e

/-- The verification outcome as wired in the second pass. -/
def verif_of (c : Ctx) (evaluate : String → ℤ → Except String EvalCM)
    (processed : List ProcEntry) (e : ProcEntry) : VerifOut :=
  run_verification c evaluate (cp_win_before c).2 (sac_of c processed e)
    (eff_loss_of c e) e.md.move_uci

/-- Classification steps 1-2 as wired in the second pass. -/
def pre_of (c : Ctx) (evaluate : String → ℤ → Except String EvalCM)
    (processed : List ProcEntry) (e : ProcEntry) : PreOut :=
  pre_class c.cfg (processed.length == 1) (sac_of c processed e)
    (verif_of c evaluate processed e).verified_sound (eff_loss_of c e) e.win
    (sort_desc (processed.map ProcEntry.win))

/-- The final classification as wired in the second pass. -/
def cls_of (c : Ctx) (evaluate : String → ℤ → Except String EvalCM)
    (processed : List ProcEntry) (e : ProcEntry) : ClassOut :=
  final_class_of c.cfg (processed.length == 1) (is_book_of c e.md)
    (is_tied_best_of c.cfg processed e) (cp_win_before c).2 e.win (eff_loss_of c e)
    (pre_of c evaluate processed e)

/-- The `analysis_meta` assembly (lines 642-652 and 711-718). -/
def meta_of (c : Ctx) (evaluate : String → ℤ → Except String EvalCM)
    (processed : List ProcEntry) (e : ProcEntry) : Meta :=
  { book_health := (cls_of c evaluate processed e).book_health
    engine_classification := (cls_of c evaluate processed e).engine_classification
    original_rank := e.md.engine_rank.getD 99
    is_sac_candidate := (sac_of c processed e).isSome
    verified_sound := (verif_of c evaluate processed e).verified_sound
    sac_type := sac_of c processed e
    verified :=
      if (sac_of c processed e).isSome then some (verif_of c evaluate processed e).verified_sound
      else none }

/-- The second-pass body (lines 349-755): one `MoveAnalysis` per processed
candidate.  `base` is the per-call `uuid4()` draw used in `analysis_id`. -/
def analyze_one (base : String) (c : Ctx) (evaluate : String → ℤ → Except String EvalCM)
    (processed : List ProcEntry) (e : ProcEntry) : MoveAnalysis :=
  { analysis_id := base ++ "-" ++ e.md.move_uci
    move_uci := e.md.move_uci
    move_san := e.md.move_san
    engine_rank := e.md.engine_rank.getD 99
    cp_before := some (cp_win_before c).1
    cp_after := some e.cp
    win_before := (cp_win_before c).2
    win_after := e.win
    win_delta := (cp_win_before c).2 - e.win
    material_before_cp := some (material_before_of c)
    material_after_cp := some (material_after_of c e.md)
    material_delta_cp := some (material_delta_of c e.md)
    non_pawn_piece_loss := some (non_pawn_loss_of c e.md)
    is_capture := e.md.is_capture
    is_promotion := e.md.is_promotion
    is_castle := e.md.is_castle
    is_check := e.md.is_check
    is_forced := processed.length == 1
    is_book_move := is_book_of c e.md
    is_mate_threat := mate_threat_of c e.md
    is_mate_missed := mate_missed_of c e.md
    classification := (cls_of c evaluate processed e).final
    accuracy :=
      accuracy_of (cp_win_before c).2 ((cp_win_before c).2 - e.win) (is_book_of c e.md)
        (e.md.engine_eval_after.depth.getD 0) c.default_depth (material_delta_of c e.md) c.cfg
    classification_confidence :=
      confidence_of (e.md.engine_eval_after.depth.getD 0) c.default_depth
        (is_tied_best_of c.cfg processed e)
    comments :=
      render_comments
        ((verif_of c evaluate processed e).comments ++ (cls_of c evaluate processed e).comments)
    analysis_meta := meta_of c evaluate processed e }

/-- `analyze_moves_for_position`: the two-pass per-position algorithm.
`base` models the per-call `uuid.uuid4()` draw; `evaluate` is the engine's
evaluation method (applied to the board after the move, identified by the
move's UCI string, and a depth). -/
def analyze_moves_for_position (base : String) (c : Ctx)
    (evaluate : String → ℤ → Except String EvalCM) (lmd : List MoveData) :
    List MoveAnalysis :=
  (processed_of c lmd).map (analyze_one base c evaluate (processed_of c lmd))

/-- Favorability rank of a bucket label (Best is most favorable). -/
def class_rank (s : String) : ℕ :=
  if s = "Best" then 0
  else if s = "Excellent" then 1
  else if s = "Good" then 2
  else if s = "Inaccuracy" then 3
  else if s = "Mistake" then 4
  else 5

/-- Erase the `analysis_id` field (the only field that depends on the
per-call UUID draw). -/
def strip_id (ma : MoveAnalysis) : MoveAnalysis :=
  { ma with analysis_id := "" }

/-- Default `ProcEntry` used with `List.getD`. -/
def dummy_entry : ProcEntry :=
  ⟨{ move_uci := "" }, 0, 0⟩

/-- Default `MoveAnalysis` used with `List.getD`. -/
def dummy_analysis : MoveAnalysis where
  analysis_id := ""
  move_uci := ""
  move_san := none
  engine_rank := 0
  cp_before := none
  cp_after := none
  win_before := 0
  win_after := 0
  win_delta := 0
  material_before_cp := none
  material_after_cp := none
  material_delta_cp := none
  non_pawn_piece_loss := none
  is_capture := false
  is_promotion := false
  is_castle := false
  is_check := false
  is_forced := false
  is_book_move := false
  is_mate_threat := false
  is_mate_missed := false
  classification := ""
  accuracy := 0
  classification_confidence := ""
  comments := none
  analysis_meta := {}

/-! ### Basic lemmas about the pipeline structure -/

theorem processed_length (c : Ctx) (lmd : List MoveData) :
    (processed_of c lmd).length = lmd.length := by
  simp [processed_of]

theorem analyze_length (base : String) (c : Ctx)
    (evaluate : String → ℤ → Except String EvalCM) (lmd : List MoveData) :
    (analyze_moves_for_position base c evaluate lmd).length = lmd.length := by
  simp [analyze_moves_for_position, processed_of]

theorem analyze_getD_eq (base : String) (c : Ctx)
    (evaluate : String → ℤ → Except String EvalCM) (lmd : List MoveData) (i : ℕ)
    (hi : i < lmd.length) :
    (analyze_moves_for_position base c evaluate lmd).getD i dummy_analysis
      = analyze_one base c evaluate (processed_of c lmd)
          ((processed_of c lmd).getD i dummy_entry) := by
  have h1 : i < (processed_of c lmd).length := by rw [processed_length]; exact hi
  have h2 : i < (analyze_moves_for_position base c evaluate lmd).length := by
    rw [analyze_length]; exact hi
  rw [List.getD_eq_getElem _ _ h2, List.getD_eq_getElem _ _ h1]
  simp [analyze_moves_for_position]

theorem analyze_one_classification (base : String) (c : Ctx)
    (evaluate : String → ℤ → Except String EvalCM) (P : List ProcEntry) (e : ProcEntry) :
    (analyze_one base c evaluate P e).classification = (cls_of c evaluate P e).final := rfl

theorem analyze_one_meta (base : String) (c : Ctx)
    (evaluate : String → ℤ → Except String EvalCM) (P : List ProcEntry) (e : ProcEntry) :
    (analyze_one base c evaluate P e).analysis_meta = meta_of c evaluate P e := rfl

theorem analyze_one_comments (base : String) (c : Ctx)
    (evaluate : String → ℤ → Except String EvalCM) (P : List ProcEntry) (e : ProcEntry) :
    (analyze_one base c evaluate P e).comments
      = render_comments ((verif_of c evaluate P e).comments ++ (cls_of c evaluate P e).comments) :=
  rfl

theorem analyze_one_accuracy (base : String) (c : Ctx)
    (evaluate : String → ℤ → Except String EvalCM) (P : List ProcEntry) (e : ProcEntry) :
    (analyze_one base c evaluate P e).accuracy
      = accuracy_of (cp_win_before c).2 ((cp_win_before c).2 - e.win) (is_book_of c e.md)
          (e.md.engine_eval_after.depth.getD 0) c.default_depth (material_delta_of c e.md)
          c.cfg := rfl

/-! ### C6: the stability bonus tiers -/

/-- C6 counterexample: at a mid-tier (default) depth — after-eval depth 15
with engine default depth 18, so neither `depth ≥ default+2` nor
`depth < 10` — the stability bonus is `int(5*0.5) = 2`, not 4 as the claim
states. -/
theorem claim6_counterexample : stability_bonus 15 18 = 2 ∧ ¬ stability_bonus 15 18 = 4 := by
  constructor <;> norm_num [stability_bonus, stability_val, py_int]

/-- C6 (amended): the stability bonus is `int(5 * stability_val)` where the
stability value is 0.8 when the after-eval depth reached default+2, 0.2 when
the depth is below 10, and 0.5 otherwise, yielding the integer bonuses 4
(high tier), 1 (low tier) and 2 (mid/default tier) respectively. -/
theorem claim6_stability_bonus_tiers (depth_input default_depth : ℤ) :
    (default_depth + 2 ≤ depth_input → stability_bonus depth_input default_depth = 4) ∧
    (depth_input < default_depth + 2 → depth_input < 10 →
      stability_bonus depth_input default_depth = 1) ∧
    (depth_input < default_depth + 2 → 10 ≤ depth_input →
      stability_bonus depth_input default_depth = 2) := by
  unfold stability_bonus stability_val
  refine ⟨fun h => ?_, fun h1 h2 => ?_, fun h1 h2 => ?_⟩
  · rw [if_pos (by omega : depth_input ≥ default_depth + 2)]
    norm_num [py_int]
  · rw [if_neg (by omega : ¬ depth_input ≥ default_depth + 2), if_pos h2]
    norm_num [py_int]
  · rw [if_neg (by omega : ¬ depth_input ≥ default_depth + 2),
      if_neg (by omega : ¬ depth_input < 10)]
    norm_num [py_int]

/-- C6 witness: depth 20 with default depth 18 is the high tier and gets
bonus 4. -/
theorem claim6_witness : ((18:ℤ) + 2 ≤ 20) ∧ stability_bonus 20 18 = 4 :=
  ⟨by norm_num, (claim6_stability_bonus_tiers 20 18).1 (by norm_num)⟩

/-! ### C7: the default bucket boundaries -/

/-- C7: under the default boundaries, `classify_by_delta` maps a
non-negative loss to Best when loss ≤ 1, Excellent when 1 < loss ≤ 3, Good
when 3 < loss ≤ 5, Inaccuracy when 5 < loss ≤ 9, Mistake when
9 < loss ≤ 20, and Blunder when loss > 20; in particular a loss of exactly
9 yields "Inaccuracy" — every boundary is inclusive on its upper bound. -/
theorem claim7_bucket_boundaries (loss : ℚ) (h0 : 0 ≤ loss) :
    (loss ≤ 1 → classify_by_delta loss DEFAULT_CONFIG = "Best") ∧
    (1 < loss → loss ≤ 3 → classify_by_delta loss DEFAULT_CONFIG = "Excellent") ∧
    (3 < loss → loss ≤ 5 → classify_by_delta loss DEFAULT_CONFIG = "Good") ∧
    (5 < loss → loss ≤ 9 → classify_by_delta loss DEFAULT_CONFIG = "Inaccuracy") ∧
    (9 < loss → loss ≤ 20 → classify_by_delta loss DEFAULT_CONFIG = "Mistake") ∧
    (20 < loss → classify_by_delta loss DEFAULT_CONFIG = "Blunder") ∧
    classify_by_delta 9 DEFAULT_CONFIG = "Inaccuracy" := by
  refine ⟨?_, ?_, ?_, ?_, ?_, ?_, ?_⟩ <;> intros <;>
    simp only [classify_by_delta, DEFAULT_CONFIG] <;> split_ifs <;>
      first | rfl | linarith

/-- C7 witness: a loss of exactly 9 is in the fourth band and classifies as
"Inaccuracy". -/
theorem claim7_witness :
    ((0:ℚ) ≤ 9 ∧ 5 < (9:ℚ) ∧ (9:ℚ) ≤ 9) ∧
      classify_by_delta 9 DEFAULT_CONFIG = "Inaccuracy" :=
  ⟨⟨by norm_num, by norm_num, le_refl 9⟩,
    (claim7_bucket_boundaries 9 (by norm_num)).2.2.2.1 (by norm_num) (le_refl 9)⟩

/-! ### C8: monotonicity of the bucket function -/

/-- C8: for strictly increasing boundaries, `classify_by_delta` is monotone:
a smaller loss never gets a less favorable bucket (in the order Best,
Excellent, Good, Inaccuracy, Mistake, Blunder). -/
theorem claim8_bucket_monotone (cfg : Config) (l1 l2 : ℚ)
    (hb1 : cfg.delta_best < cfg.delta_excellent)
    (hb2 : cfg.delta_excellent < cfg.delta_good)
    (hb3 : cfg.delta_good < cfg.delta_inaccuracy)
    (hb4 : cfg.delta_inaccuracy < cfg.delta_mistake)
    (h12 : l1 < l2) :
    class_rank (classify_by_delta l1 cfg) ≤ class_rank (classify_by_delta l2 cfg) := by
  unfold classify_by_delta
  split_ifs <;> simp [class_rank] <;> linarith

/-- C8 witness: with the default (strictly increasing) boundaries and losses
2 < 10, the bucket of 2 ranks no worse than the bucket of 10. -/
theorem claim8_witness :
    class_rank (classify_by_delta 2 DEFAULT_CONFIG)
      ≤ class_rank (classify_by_delta 10 DEFAULT_CONFIG) :=
  claim8_bucket_monotone DEFAULT_CONFIG 2 10 (by norm_num [DEFAULT_CONFIG])
    (by norm_num [DEFAULT_CONFIG]) (by norm_num [DEFAULT_CONFIG])
    (by norm_num [DEFAULT_CONFIG]) (by norm_num)

/-! ### C10: some candidate is always tied for best -/

theorem foldl_best_attained (xs : List ProcEntry) (a : ℤ) :
    xs.foldl (fun b y => if y.cp > b then y.cp else b) a = a ∨
      ∃ y ∈ xs, xs.foldl (fun b y => if y.cp > b then y.cp else b) a = y.cp := by
  induction xs generalizing a with
  | nil => exact Or.inl rfl
  | cons x xs ih =>
    simp only [List.foldl_cons]
    rcases ih (if x.cp > a then x.cp else a) with h | ⟨y, hy, h⟩
    · by_cases hc : x.cp > a
      · exact Or.inr ⟨x, List.mem_cons_self x xs, by rw [h, if_pos hc]⟩
      · exact Or.inl (by rw [h, if_neg hc])
    · exact Or.inr ⟨y, List.mem_cons_of_mem x hy, h⟩

theorem best_cp_attained (P : List ProcEntry) (h : P ≠ []) :
    ∃ e ∈ P, e.cp = best_cp P := by
  match P, h with
  | x :: xs, _ =>
    unfold best_cp
    rcases foldl_best_attained xs x.cp with h | ⟨y, hy, h⟩
    · exact ⟨x, List.mem_cons_self x xs, h.symm⟩
    · exact ⟨y, List.mem_cons_of_mem x hy, h.symm⟩

/-- C10: in every non-empty batch (with a non-negative centipawn tie
tolerance, as in the default config), the candidate attaining the batch's
maximum normalized centipawn value passes the centipawn tie test with
difference 0, so at least one candidate is flagged tied-for-best. -/
theorem claim10_tied_best_exists (c : Ctx) (lmd : List MoveData)
    (hne : lmd ≠ []) (heps : 0 ≤ c.cfg.tie_cp_eps) :
    ∃ e ∈ processed_of c lmd,
      e.cp = best_cp (processed_of c lmd) ∧
        is_tied_best_of c.cfg (processed_of c lmd) e = true := by
  have hP : processed_of c lmd ≠ [] := by simpa [processed_of] using hne
  obtain ⟨e, he, hcp⟩ := best_cp_attained (processed_of c lmd) hP
  refine ⟨e, he, hcp, ?_⟩
  unfold is_tied_best_of
  rw [if_pos]
  rw [hcp]
  simpa using heps

/-- A plain concrete context for witnesses: constant win function, default
config, engine defaults, no book hits. -/
def wctx0 : Ctx where
  cpToWin := fun _ => 50
  cfg := DEFAULT_CONFIG
  default_depth := 18
  returns_white_pov := false
  in_book := fun _ _ => false
  side_to_move_white := true
  eval_before := {}
  board := {}

/-- Concrete two-candidate batch for the C10 witness. -/
def w10moves : List MoveData :=
  [{ move_uci := "e2e4", engine_eval_after := { cp := some 30 } },
   { move_uci := "d2d4", engine_eval_after := { cp := some 10 } }]

/-- C10 witness: a concrete two-candidate batch in which the max-centipawn
candidate is flagged tied-for-best. -/
theorem claim10_witness :
    (w10moves ≠ [] ∧ 0 ≤ wctx0.cfg.tie_cp_eps) ∧
    ∃ e ∈ processed_of wctx0 w10moves,
      e.cp = best_cp (processed_of wctx0 w10moves) ∧
        is_tied_best_of wctx0.cfg (processed_of wctx0 w10moves) e = true :=
  ⟨⟨by simp [w10moves], by norm_num [wctx0, DEFAULT_CONFIG]⟩,
    claim10_tied_best_exists wctx0 w10moves (by simp [w10moves])
      (by norm_num [wctx0, DEFAULT_CONFIG])⟩

/-! ### C9: accuracy is clamped to [0, 100] -/

/-- C9: every verdict's accuracy is an integer in [0, 100], and it is the
clamped rounded sum `clamp(round(base + book_bonus + stability_bonus -
material_penalty), 0, 100)` (the body of `accuracy_of`) evaluated at that
candidate's inputs — for all finite win probabilities, material deltas and
depths. -/
theorem claim9_accuracy_in_range (base : String) (c : Ctx)
    (evaluate : String → ℤ → Except String EvalCM) (lmd : List MoveData) :
    ∀ ma ∈ analyze_moves_for_position base c evaluate lmd,
      (0 ≤ ma.accuracy ∧ ma.accuracy ≤ 100) ∧
      ∃ e ∈ processed_of c lmd,
        ma.accuracy = accuracy_of (cp_win_before c).2 ((cp_win_before c).2 - e.win)
          (is_book_of c e.md) (e.md.engine_eval_after.depth.getD 0) c.default_depth
          (material_delta_of c e.md) c.cfg := by
  intro ma hma
  rw [analyze_moves_for_position] at hma
  obtain ⟨e, he, rfl⟩ := List.mem_map.mp hma
  refine ⟨?_, ⟨e, he, analyze_one_accuracy base c evaluate (processed_of c lmd) e⟩⟩
  rw [analyze_one_accuracy]
  unfold accuracy_of
  exact ⟨le_max_left _ _, max_le (by norm_num) (min_le_left _ _)⟩

/-! ### C5: determinism of the classifier -/

/-- A single-candidate batch for the C5 counterexample. -/
def w5moves : List MoveData := [{ move_uci := "e2e4" }]

/-- A side-effect-free evaluator for the C5 counterexample. -/
def w5eval : String → ℤ → Except String EvalCM := fun _ _ => Except.ok {}

/-- C5 counterexample: two calls of the classifier on the identical context,
candidate list, evaluator and book produce batches that are NOT equal field
by field — `analysis_id` embeds the per-call random `uuid4()` draw (modeled
by the `base` parameter), so the two draws "a" and "b" yield records whose
`analysis_id` fields differ. -/
theorem claim5_counterexample :
    analyze_moves_for_position "a" wctx0 w5eval w5moves
      ≠ analyze_moves_for_position "b" wctx0 w5eval w5moves := by
  intro h
  have h2 := congrArg (fun l => (l.getD 0 dummy_analysis).analysis_id) h
  have ha : ((analyze_moves_for_position "a" wctx0 w5eval w5moves).getD 0
      dummy_analysis).analysis_id = "a-e2e4" := rfl
  have hb : ((analyze_moves_for_position "b" wctx0 w5eval w5moves).getD 0
      dummy_analysis).analysis_id = "b-e2e4" := rfl
  simp only [ha, hb] at h2
  exact absurd h2 (by decide)

/-- C5 (amended): calling the classifier twice with an identical
`PositionContext` against side-effect-free collaborators produces two
batches of `MoveVerdict` records that are identical field by field except
for `analysis_id`, which embeds a fresh per-call UUID; with equal UUID
draws the batches are fully identical. -/
theorem claim5_deterministic_modulo_id (b1 b2 : String) (c : Ctx)
    (evaluate : String → ℤ → Except String EvalCM) (lmd : List MoveData) :
    (analyze_moves_for_position b1 c evaluate lmd).map strip_id
      = (analyze_moves_for_position b2 c evaluate lmd).map strip_id := by
  simp only [analyze_moves_for_position, List.map_map]
  rfl

/-! ### C1: a verified big sacrifice classifies as Brilliant -/

/-- C1: a tied-for-best candidate in a non-forced batch whose material delta
is at most `-big_sacrifice_cp` (provisional type Brilliant), whose shallow
win% loss is strictly below `sacrifice_sound_max_win_loss`, and whose single
deeper re-evaluation at `default_depth + verification_depth_extra` yields a
non-negatively-clamped win% loss still below that threshold, is classified
"Brilliant". -/
theorem claim1_verified_sacrifice_brilliant (base : String) (c : Ctx)
    (evaluate : String → ℤ → Except String EvalCM) (lmd : List MoveData)
    (i : ℕ) (E : ProcEntry) (res : EvalCM)
    (hi : i < lmd.length)
    (hE : (processed_of c lmd).getD i dummy_entry = E)
    (hnf : lmd.length ≠ 1)
    (htied : is_tied_best_of c.cfg (processed_of c lmd) E = true)
    (hmat : material_delta_of c E.md ≤ -c.cfg.big_sacrifice_cp)
    (hshallow : eff_loss_of c E < c.cfg.sacrifice_sound_max_win_loss)
    (heval : evaluate E.md.move_uci (c.default_depth + c.cfg.verification_depth_extra)
        = Except.ok res)
    (hdeep : deep_loss_of c (cp_win_before c).2 res < c.cfg.sacrifice_sound_max_win_loss) :
    ((analyze_moves_for_position base c evaluate lmd).getD i dummy_analysis).classification
      = "Brilliant" := by
  rw [analyze_getD_eq base c evaluate lmd i hi, hE, analyze_one_classification]
  have hfb : ((processed_of c lmd).length == 1) = false := by
    rw [processed_length]
    exact beq_eq_false_iff_ne.mpr hnf
  have hsac : sac_of c (processed_of c lmd) E = some "Brilliant" := by
    unfold sac_of sac_type_of
    rw [hfb, htied]
    simp only [Bool.not_false, Bool.and_true, if_true]
    rw [if_pos hmat]
  have hvs : verif_of c evaluate (processed_of c lmd) E = ⟨true, false, []⟩ := by
    unfold verif_of run_verification
    rw [hsac,
      if_pos (⟨rfl, hshallow⟩ :
        (some "Brilliant" : Option String).isSome = true ∧
          eff_loss_of c E < c.cfg.sacrifice_sound_max_win_loss)]
    simp only [heval]
    rw [if_pos hdeep]
  have hpre : pre_of c evaluate (processed_of c lmd) E = ⟨"Brilliant", true, []⟩ := by
    unfold pre_of pre_class
    rw [hsac, hvs, hfb]
    simp
  unfold cls_of final_class_of
  rw [hpre]
  simp

/-- Context for the C1/C4 witness: constant win probabilities, mover has two
rooks before the candidate move and one after (a 500 cp sacrifice). -/
def w1ctx : Ctx where
  cpToWin := fun _ => 50
  cfg := DEFAULT_CONFIG
  default_depth := 18
  returns_white_pov := false
  in_book := fun _ _ => false
  side_to_move_white := true
  eval_before := { cp := some 0, material := some [("R", 2)] }
  board := {}

/-- The sacrificing candidate of the C1/C4 witness. -/
def w1m1 : MoveData :=
  { move_uci := "e2e4", engine_eval_after := { cp := some 0 },
    material_after := some [("R", 1)] }

/-- The second candidate of the C1/C4 witness (no material change). -/
def w1m2 : MoveData :=
  { move_uci := "d2d4", engine_eval_after := { cp := some 0 },
    material_after := some [("R", 2)] }

/-- The two-candidate batch of the C1/C4 witness. -/
def w1moves : List MoveData := [w1m1, w1m2]

/-- A deep evaluator that returns cp 0 for every query. -/
def w1eval : String → ℤ → Except String EvalCM := fun _ _ => Except.ok { cp := some 0 }

/-- The processed first candidate of the C1/C4 witness. -/
def w1E : ProcEntry := process_candidate w1ctx w1m1

/-- C1 witness: the concrete rook sacrifice (delta -500 cp, shallow and deep
loss 0 < 5) is classified "Brilliant". -/
theorem claim1_witness :
    ((analyze_moves_for_position "w" w1ctx w1eval w1moves).getD 0 dummy_analysis).classification
      = "Brilliant" :=
  claim1_verified_sacrifice_brilliant "w" w1ctx w1eval w1moves 0 w1E { cp := some 0 }
    (by simp [w1moves])
    rfl
    (by simp [w1moves])
    rfl
    (by decide)
    (by norm_num [eff_loss_of, cp_win_before, normalize_cp, w1ctx, w1E, w1m1,
      process_candidate, DEFAULT_CONFIG])
    rfl
    (by norm_num [deep_loss_of, deep_win_of, cp_win_before, normalize_cp, w1ctx,
      DEFAULT_CONFIG])

/-! ### C2: dubious book moves are downgraded to Mistake/Blunder -/

/-- C2: a book move in a non-forced batch that was not labeled
Brilliant/Great by the earlier rules is downgraded to the plain win%-loss
bucket label when its loss exceeds the book-dubious threshold and that
bucket is Mistake or Blunder (with the bucket recorded as
`analysis_meta.engine_classification`); otherwise its label stays "Book". -/
theorem claim2_book_dubious_downgrade (base : String) (c : Ctx)
    (evaluate : String → ℤ → Except String EvalCM) (lmd : List MoveData)
    (i : ℕ) (E : ProcEntry)
    (hi : i < lmd.length)
    (hE : (processed_of c lmd).getD i dummy_entry = E)
    (hnf : lmd.length ≠ 1)
    (hpre : (pre_of c evaluate (processed_of c lmd) E).fired = false)
    (hbook : is_book_of c E.md = true) :
    ((eff_loss_of c E > c.cfg.book_dubious_threshold ∧
        (classify_by_delta (eff_loss_of c E) c.cfg = "Mistake" ∨
          classify_by_delta (eff_loss_of c E) c.cfg = "Blunder")) →
      ((analyze_moves_for_position base c evaluate lmd).getD i dummy_analysis).classification
          = classify_by_delta (eff_loss_of c E) c.cfg ∧
        ((analyze_moves_for_position base c evaluate lmd).getD i
            dummy_analysis).analysis_meta.engine_classification
          = some (classify_by_delta (eff_loss_of c E) c.cfg)) ∧
    (¬ (eff_loss_of c E > c.cfg.book_dubious_threshold ∧
        (classify_by_delta (eff_loss_of c E) c.cfg = "Mistake" ∨
          classify_by_delta (eff_loss_of c E) c.cfg = "Blunder")) →
      ((analyze_moves_for_position base c evaluate lmd).getD i dummy_analysis).classification
        = "Book") := by
  have hfb : ((processed_of c lmd).length == 1) = false := by
    rw [processed_length]
    exact beq_eq_false_iff_ne.mpr hnf
  rw [analyze_getD_eq base c evaluate lmd i hi, hE]
  constructor
  · rintro ⟨hgt, hmb⟩
    have hcls : cls_of c evaluate (processed_of c lmd) E =
        ⟨classify_by_delta (eff_loss_of c E) c.cfg,
          (pre_of c evaluate (processed_of c lmd) E).comments ++
            ["Book (dubious): loses " ++ toString (eff_loss_of c E) ++ "%"],
          some "dubious", some (classify_by_delta (eff_loss_of c E) c.cfg)⟩ := by
      unfold cls_of final_class_of
      rw [hpre, hbook, hfb]
      simp only [Bool.false_eq_true, if_false, reduceIte]
      rw [if_pos hgt]
      rw [if_pos hmb]
    rw [analyze_one_classification, analyze_one_meta]
    unfold meta_of
    rw [hcls]
    exact ⟨rfl, rfl⟩
  · intro hneg
    rw [analyze_one_classification]
    unfold cls_of final_class_of
    rw [hpre, hbook, hfb]
    simp only [Bool.false_eq_true, if_false, reduceIte]
    by_cases hgt : eff_loss_of c E > c.cfg.book_dubious_threshold
    · have hmb : ¬ (classify_by_delta (eff_loss_of c E) c.cfg = "Mistake" ∨
          classify_by_delta (eff_loss_of c E) c.cfg = "Blunder") :=
        fun h => hneg ⟨hgt, h⟩
      rw [if_pos hgt]
      rw [if_neg hmb]
    · rw [if_neg hgt]

/-- Context for the C2 witness: win 50% before, 25% after every non-winning
move, every move is in book. -/
def w2ctx : Ctx where
  cpToWin := fun cp => if cp ≥ 300 then 50 else 25
  cfg := DEFAULT_CONFIG
  default_depth := 18
  returns_white_pov := false
  in_book := fun _ _ => true
  side_to_move_white := true
  eval_before := { cp := some 300 }
  board := {}

/-- The dubious book candidate of the C2 witness. -/
def w2m1 : MoveData := { move_uci := "d7d5", engine_eval_after := { cp := some 0 } }

/-- The second candidate of the C2 witness. -/
def w2m2 : MoveData := { move_uci := "d2d4", engine_eval_after := { cp := some 0 } }

/-- The two-candidate batch of the C2 witness. -/
def w2moves : List MoveData := [w2m1, w2m2]

/-- The processed first candidate of the C2 witness. -/
def w2E : ProcEntry := process_candidate w2ctx w2m1

/-- C2 witness: a book move losing 25 win% (above the dubious threshold 2,
bucket "Blunder") is labeled "Blunder", with the bucket recorded as
`analysis_meta.engine_classification`. -/
theorem claim2_witness :
    ((analyze_moves_for_position "w" w2ctx w5eval w2moves).getD 0 dummy_analysis).classification
        = "Blunder" ∧
      ((analyze_moves_for_position "w" w2ctx w5eval w2moves).getD 0
          dummy_analysis).analysis_meta.engine_classification = some "Blunder" := by
  have hec : classify_by_delta (eff_loss_of w2ctx w2E) w2ctx.cfg = "Blunder" := by
    norm_num [classify_by_delta, eff_loss_of, cp_win_before, normalize_cp, w2ctx, w2E, w2m1,
      process_candidate, DEFAULT_CONFIG]
  have h := (claim2_book_dubious_downgrade "w" w2ctx w5eval w2moves 0 w2E
      (by norm_num [w2moves]) rfl (by norm_num [w2moves])
      (by norm_num [pre_of, pre_class, sac_of, sac_type_of, is_tied_best_of, best_cp, best_win,
        material_delta_of, material_after_of, material_before_of, mat_truthy,
        compute_material_cp, eff_loss_of, cp_win_before, normalize_cp, processed_of,
        process_candidate, verif_of, run_verification, deep_loss_of, deep_win_of, sort_desc,
        insert_desc, w2ctx, w2m1, w2m2, w2moves, w2E, w5eval, DEFAULT_CONFIG])
      rfl).1
    ⟨by norm_num [eff_loss_of, cp_win_before, normalize_cp, w2ctx, w2E, w2m1,
        process_candidate, DEFAULT_CONFIG],
      Or.inr hec⟩
  exact ⟨hec ▸ h.1, hec ▸ h.2⟩

/-! ### C3: the "only good move" rule labels Great -/

theorem verif_comments_shape (c : Ctx) (evaluate : String → ℤ → Except String EvalCM)
    (P : List ProcEntry) (e : ProcEntry) :
    (verif_of c evaluate P e).comments = [] ∨
      ∃ s, (verif_of c evaluate P e).comments = [s] := by
  unfold verif_of run_verification
  split
  · dsimp only
    split
    · exact Or.inr ⟨_, rfl⟩
    · split
      · exact Or.inl rfl
      · exact Or.inr ⟨_, rfl⟩
  · exact Or.inl rfl

/-- C3: in a non-forced batch of at least two candidates, a candidate not
labeled by the sacrifice rule whose win% loss is below the Excellent
boundary, whose win% is within 1.0 of the batch maximum, while the gap
between the best and second-best win% exceeds 20.0 and the best win%
exceeds 50.0, is labeled "Great" with a distinguishing comment (this rule
precedes the forced/book/tie/bucket rules). -/
theorem claim3_only_good_move_great (base : String) (c : Ctx)
    (evaluate : String → ℤ → Except String EvalCM) (lmd : List MoveData)
    (i : ℕ) (E : ProcEntry) (w0 w1 : ℚ) (rest : List ℚ)
    (hi : i < lmd.length)
    (hE : (processed_of c lmd).getD i dummy_entry = E)
    (hnf : lmd.length ≠ 1)
    (hsacfail : ((sac_of c (processed_of c lmd) E).isSome &&
        (verif_of c evaluate (processed_of c lmd) E).verified_sound) = false)
    (hloss : eff_loss_of c E < c.cfg.delta_excellent)
    (hsorted : sort_desc ((processed_of c lmd).map ProcEntry.win) = w0 :: w1 :: rest)
    (hnear : |E.win - w0| < 1)
    (hgap : w0 - w1 > 20)
    (hbest : w0 > 50) :
    ((analyze_moves_for_position base c evaluate lmd).getD i dummy_analysis).classification
        = "Great" ∧
      ∃ t, ((analyze_moves_for_position base c evaluate lmd).getD i dummy_analysis).comments
        = some (t ++ "Found the only good move.") := by
  have hfb : ((processed_of c lmd).length == 1) = false := by
    rw [processed_length]
    exact beq_eq_false_iff_ne.mpr hnf
  rw [analyze_getD_eq base c evaluate lmd i hi, hE]
  have hpre : pre_of c evaluate (processed_of c lmd) E
      = ⟨"Great", true, ["Found the only good move."]⟩ := by
    unfold pre_of pre_class
    rw [hsorted, hfb, hsacfail]
    simp only [Bool.false_and, Bool.not_false, Bool.and_self, if_true, if_false,
      Bool.false_eq_true, reduceIte]
    rw [if_pos hloss]
    rw [if_pos hnear]
    rw [if_pos (And.intro hgap hbest)]
  have hcls : cls_of c evaluate (processed_of c lmd) E
      = ⟨"Great", ["Found the only good move."], none, none⟩ := by
    unfold cls_of final_class_of
    rw [hpre]
    simp
  constructor
  · rw [analyze_one_classification, hcls]
  · rw [analyze_one_comments, hcls]
    rcases verif_comments_shape c evaluate (processed_of c lmd) E with hv | ⟨s, hv⟩
    · rw [hv]
      exact ⟨"", by simp [render_comments, join_semicolon, String.empty_append]⟩
    · rw [hv]
      refine ⟨s ++ "; ", ?_⟩
      simp [render_comments, join_semicolon, String.append_assoc]

/-- Context for the C3 witness: win 80% for the strong move, 40% otherwise. -/
def w3ctx : Ctx where
  cpToWin := fun cp => if cp ≥ 100 then 80 else 40
  cfg := DEFAULT_CONFIG
  default_depth := 18
  returns_white_pov := false
  in_book := fun _ _ => false
  side_to_move_white := true
  eval_before := { cp := some 200 }
  board := {}

/-- The only good candidate of the C3 witness. -/
def w3m1 : MoveData := { move_uci := "g1f3", engine_eval_after := { cp := some 200 } }

/-- The clearly worse second candidate of the C3 witness. -/
def w3m2 : MoveData := { move_uci := "a2a3", engine_eval_after := { cp := some 0 } }

/-- The two-candidate batch of the C3 witness. -/
def w3moves : List MoveData := [w3m1, w3m2]

/-- The processed first candidate of the C3 witness. -/
def w3E : ProcEntry := process_candidate w3ctx w3m1

/-- C3 witness: the only good move (80% vs 40%, loss 0) is labeled "Great"
with the distinguishing comment. -/
theorem claim3_witness :
    ((analyze_moves_for_position "w" w3ctx w5eval w3moves).getD 0 dummy_analysis).classification
        = "Great" ∧
      ∃ t, ((analyze_moves_for_position "w" w3ctx w5eval w3moves).getD 0
          dummy_analysis).comments = some (t ++ "Found the only good move.") :=
  claim3_only_good_move_great "w" w3ctx w5eval w3moves 0 w3E 80 40 []
    (by norm_num [w3moves])
    rfl
    (by norm_num [w3moves])
    (by decide)
    (by norm_num [eff_loss_of, cp_win_before, normalize_cp, w3ctx, w3E, w3m1,
      process_candidate, DEFAULT_CONFIG])
    (by norm_num [sort_desc, insert_desc, processed_of, process_candidate, normalize_cp,
      w3ctx, w3m1, w3m2, w3moves])
    (by norm_num [w3E, w3m1, process_candidate, normalize_cp, w3ctx])
    (by norm_num)
    (by norm_num)

/-! ### C4: a failing deeper evaluation degrades, never confirms -/

theorem foldl_semicolon_extract (l : List String) (a : String) :
    ∃ t, l.foldl (fun x y => x ++ "; " ++ y) a = a ++ t := by
  induction l generalizing a with
  | nil => exact ⟨"", (String.append_empty a).symm⟩
  | cons x l ih =>
    obtain ⟨t, ht⟩ := ih (a ++ "; " ++ x)
    exact ⟨"; " ++ x ++ t, by rw [List.foldl_cons, ht]; simp [String.append_assoc]⟩

theorem render_comments_cons (a : String) (l : List String) :
    ∃ t, render_comments (a :: l) = some (a ++ t) := by
  obtain ⟨t, ht⟩ := foldl_semicolon_extract l a
  exact ⟨t, by simp [render_comments, join_semicolon, ht]⟩

theorem run_verification_point_congr (c : Ctx)
    (f1 f2 : String → ℤ → Except String EvalCM) (win_before : ℚ)
    (sac_type : Option String) (effective_loss : ℚ) (move_uci : String)
    (h : f1 move_uci (c.default_depth + c.cfg.verification_depth_extra)
        = f2 move_uci (c.default_depth + c.cfg.verification_depth_extra)) :
    run_verification c f1 win_before sac_type effective_loss move_uci
      = run_verification c f2 win_before sac_type effective_loss move_uci := by
  unfold run_verification
  simp only [h]

/-- The whole verdict of a candidate depends on the evaluator only through
its value at the single point `(move_uci, default_depth +
verification_depth_extra)` — the one deeper evaluation the code may issue
for that candidate (never retried, never at another depth). -/
theorem analyze_one_evaluate_congr (base : String) (c : Ctx)
    (f1 f2 : String → ℤ → Except String EvalCM) (P : List ProcEntry) (e : ProcEntry)
    (h : f1 e.md.move_uci (c.default_depth + c.cfg.verification_depth_extra)
        = f2 e.md.move_uci (c.default_depth + c.cfg.verification_depth_extra)) :
    analyze_one base c f1 P e = analyze_one base c f2 P e := by
  have hv : verif_of c f1 P e = verif_of c f2 P e :=
    run_verification_point_congr c f1 f2 _ _ _ _ h
  have hcls : cls_of c f1 P e = cls_of c f2 P e := by
    unfold cls_of pre_of
    rw [hv]
  unfold analyze_one meta_of
  rw [hv, hcls]

/-- C4: when the deeper re-evaluation of a sacrifice candidate (shallow loss
below the soundness threshold) raises an error, the candidate is never
marked verified-sound (`analysis_meta.verified_sound = false` and
`analysis_meta.verified = some false`, so the sacrifice rule cannot label it
Brilliant/Great), a human-readable comment is attached, the batch still
contains one verdict per candidate, and the candidate's verdict depends on
the evaluator only through that single evaluation point (so the failed call
is not retried and the error does not propagate). -/
theorem claim4_verification_error_degrades (base : String) (c : Ctx)
    (evaluate : String → ℤ → Except String EvalCM) (lmd : List MoveData)
    (i : ℕ) (E : ProcEntry) (msg : String)
    (hi : i < lmd.length)
    (hE : (processed_of c lmd).getD i dummy_entry = E)
    (hsac : (sac_of c (processed_of c lmd) E).isSome = true)
    (hshallow : eff_loss_of c E < c.cfg.sacrifice_sound_max_win_loss)
    (herr : evaluate E.md.move_uci (c.default_depth + c.cfg.verification_depth_extra)
        = Except.error msg) :
    (analyze_moves_for_position base c evaluate lmd).length = lmd.length ∧
    ((analyze_moves_for_position base c evaluate lmd).getD i
        dummy_analysis).analysis_meta.verified_sound = false ∧
    ((analyze_moves_for_position base c evaluate lmd).getD i
        dummy_analysis).analysis_meta.verified = some false ∧
    (∃ t, ((analyze_moves_for_position base c evaluate lmd).getD i dummy_analysis).comments
        = some ("Verification failed" ++ t)) ∧
    (∀ evaluate2 : String → ℤ → Except String EvalCM,
      evaluate2 E.md.move_uci (c.default_depth + c.cfg.verification_depth_extra)
          = evaluate E.md.move_uci (c.default_depth + c.cfg.verification_depth_extra) →
      (analyze_moves_for_position base c evaluate2 lmd).getD i dummy_analysis
        = (analyze_moves_for_position base c evaluate lmd).getD i dummy_analysis) := by
  have hvs : verif_of c evaluate (processed_of c lmd) E
      = ⟨false, true, ["Verification failed"]⟩ := by
    unfold verif_of run_verification
    rw [if_pos (And.intro hsac hshallow)]
    simp only [herr]
  refine ⟨analyze_length base c evaluate lmd, ?_, ?_, ?_, ?_⟩
  · rw [analyze_getD_eq base c evaluate lmd i hi, hE, analyze_one_meta]
    unfold meta_of
    rw [hvs]
  · rw [analyze_getD_eq base c evaluate lmd i hi, hE, analyze_one_meta]
    unfold meta_of
    rw [hvs, hsac]
    simp
  · rw [analyze_getD_eq base c evaluate lmd i hi, hE, analyze_one_comments, hvs]
    simpa using render_comments_cons "Verification failed"
      (cls_of c evaluate (processed_of c lmd) E).comments
  · intro evaluate2 hpt
    rw [analyze_getD_eq base c evaluate2 lmd i hi, analyze_getD_eq base c evaluate lmd i hi]
    exact analyze_one_evaluate_congr base c evaluate2 evaluate (processed_of c lmd)
      ((processed_of c lmd).getD i dummy_entry) (by rw [hE, hpt])

/-- An evaluator whose every call raises (for the C4 witness). -/
def w4eval : String → ℤ → Except String EvalCM := fun _ _ => Except.error "engine unavailable"

/-- C4 witness: with the C1 rook-sacrifice batch but an erroring deep
evaluator, the batch is still complete and the candidate is not marked
verified-sound, with the "Verification failed" comment attached. -/
theorem claim4_witness :
    (analyze_moves_for_position "w" w1ctx w4eval w1moves).length = w1moves.length ∧
      ((analyze_moves_for_position "w" w1ctx w4eval w1moves).getD 0
          dummy_analysis).analysis_meta.verified_sound = false ∧
      ∃ t, ((analyze_moves_for_position "w" w1ctx w4eval w1moves).getD 0
          dummy_analysis).comments = some ("Verification failed" ++ t) := by
  have h := claim4_verification_error_degrades "w" w1ctx w4eval w1moves 0 w1E
    "engine unavailable"
    (by norm_num [w1moves])
    rfl
    (by decide)
    (by norm_num [eff_loss_of, cp_win_before, normalize_cp, w1ctx, w1E, w1m1,
      process_candidate, DEFAULT_CONFIG])
    rfl
  exact ⟨h.1, h.2.1, h.2.2.2.1⟩

/-- C9 witness: the accuracy of the single verdict of a concrete batch is in
[0, 100]. -/
theorem claim9_witness :
    0 ≤ ((analyze_moves_for_position "w" wctx0 w5eval w5moves).getD 0 dummy_analysis).accuracy ∧
      ((analyze_moves_for_position "w" wctx0 w5eval w5moves).getD 0
          dummy_analysis).accuracy ≤ 100 :=
  (claim9_accuracy_in_range "w" wctx0 w5eval w5moves
    ((analyze_moves_for_position "w" wctx0 w5eval w5moves).getD 0 dummy_analysis)
    (by
      have hlen : 0 < (analyze_moves_for_position "w" wctx0 w5eval w5moves).length := by
        rw [analyze_length]
        norm_num [w5moves]
      rw [List.getD_eq_getElem _ _ hlen]
      exact List.getElem_mem hlen)).1
